import Mathlib

/-!
Verification of the Gensyn node tracker (src/api/index.py).

The development shallowly embeds the pure core of the tracker:
* `format_last_seen` — timestamp normalisation (GensynTracker.format_last_seen),
  including a model of Python's `str.replace('Z', '+00:00')` and of
  `datetime.fromisoformat` restricted to the strict
  `YYYY-MM-DD[<sep>HH[:MM[:SS]][±HH:MM]]` grammar (no fractional seconds);
  time instants are epoch seconds (`Int`), the machine-local timezone used by
  Python for naive datetimes is an explicit `localOffsetSec` parameter, and
  "now" is an explicit epoch-seconds parameter.  Python datetimes are bounded
  to the years 1–9999: `astimezone` materialises both the UTC instant and its
  IST wall time and raises OverflowError when either leaves that range, which
  the `try/except` absorbs into the `"Unknown"` fallback; `astimezoneOk`
  models that bound.
* `get_peer_ids_from_eoa` — the chain reader, with the external Web3 library
  calls (`is_address`, `to_checksum_address`, the contract call) as oracle
  parameters; a thrown exception is an `Except.error`, absorbed as in the
  Python `try/except`.
* `fetch_rank_data` — the leaderboard client, with the HTTP POST as an oracle
  parameter; the second component of the result counts network calls made.
* The `/track` response assembly loop (`presentNode`, `buildNodesInfo`,
  `assembleResponse`), with absent JSON keys modelled as `Option.none` and
  Python's `dict.get(k, default)` as `Option.getD`.
-/

/-- Result record of `format_last_seen`: the Python dict
`{"formatted": ..., "ago": ..., "is_online": ...}`. -/
structure LastSeenView where
  formatted : String
  ago : String
  is_online : Bool
deriving DecidableEq, Repr

/-- Python `last_seen_str.replace('Z', '+00:00')`: every occurrence of `'Z'`
is replaced.  The source guards this with `if 'Z' in last_seen_str`, which is
behaviourally the identity when there is no `'Z'`. -/
def replaceZ (s : String) : String :=
  ⟨s.data.foldr
    (fun c acc =>
      if c = 'Z' then '+' :: '0' :: '0' :: ':' :: '0' :: '0' :: acc else c :: acc)
    []⟩

/-- Value of an ASCII digit, `none` on a non-digit. -/
def digitVal (c : Char) : Option Nat :=
  if '0' ≤ c ∧ c ≤ '9' then some (c.toNat - '0'.toNat) else none

/-- Parse exactly two digits. -/
def parse2 : List Char → Option (Nat × List Char)
  | c1 :: c2 :: rest =>
    match digitVal c1, digitVal c2 with
    | some d1, some d2 => some (10 * d1 + d2, rest)
    | _, _ => none
  | _ => none

/-- Parse exactly four digits. -/
def parse4 : List Char → Option (Nat × List Char)
  | c1 :: c2 :: c3 :: c4 :: rest =>
    match digitVal c1, digitVal c2, digitVal c3, digitVal c4 with
    | some d1, some d2, some d3, some d4 =>
      some (1000 * d1 + 100 * d2 + 10 * d3 + d4, rest)
    | _, _, _, _ => none
  | _ => none

/-- The result of Python's `datetime.fromisoformat`: a wall-clock datetime,
aware (`offsetMinutes = some o`) or naive (`offsetMinutes = none`). -/
structure PyDateTime where
  year : Nat
  month : Nat
  day : Nat
  hour : Nat
  minute : Nat
  second : Nat
  offsetMinutes : Option Int
deriving DecidableEq, Repr

/-- Gregorian leap year, as `calendar.isleap`. -/
def isLeap (y : Nat) : Bool :=
  decide ((y % 4 = 0 ∧ y % 100 ≠ 0) ∨ y % 400 = 0)

/-- Days in a month of the proleptic Gregorian calendar. -/
def daysInMonth (y m : Nat) : Nat :=
  if m = 2 then (if isLeap y then 29 else 28)
  else if m = 4 ∨ m = 6 ∨ m = 9 ∨ m = 11 then 30
  else 31

/-- Validity of a calendar date as `datetime` enforces it
(`MINYEAR = 1`, month in 1..12, day in 1..days-of-month). -/
def validDate (y m d : Nat) : Bool :=
  decide (1 ≤ y ∧ 1 ≤ m ∧ m ≤ 12 ∧ 1 ≤ d) && decide (d ≤ daysInMonth y m)

/-- Parse a `HH:MM` UTC-offset tail (after the sign), yielding the signed
offset in minutes; rejects offsets `datetime.timezone` would reject. -/
def parseOff (sign : Int) (cs : List Char) : Option Int := do
  let (oh, r1) ← parse2 cs
  match r1 with
  | ':' :: r2 => do
    let (om, r3) ← parse2 r2
    match r3 with
    | [] => if oh ≤ 23 ∧ om ≤ 59 then some (sign * ((oh * 60 + om : Nat) : Int)) else none
    | _ => none
  | _ => none

/-- Parse the time-of-day part `HH[:MM[:SS]]` with an optional `±HH:MM`
offset, consuming the whole input. -/
def parseTimeTail (cs : List Char) : Option (Nat × Nat × Nat × Option Int) := do
  let (h, r1) ← parse2 cs
  if h > 23 then none else
  match r1 with
  | [] => some (h, 0, 0, none)
  | '+' :: r => (parseOff 1 r).map (fun o => (h, 0, 0, some o))
  | '-' :: r => (parseOff (-1) r).map (fun o => (h, 0, 0, some o))
  | ':' :: r2 => do
    let (mi, r3) ← parse2 r2
    if mi > 59 then none else
    match r3 with
    | [] => some (h, mi, 0, none)
    | '+' :: r => (parseOff 1 r).map (fun o => (h, mi, 0, some o))
    | '-' :: r => (parseOff (-1) r).map (fun o => (h, mi, 0, some o))
    | ':' :: r4 => do
      let (sec, r5) ← parse2 r4
      if sec > 59 then none else
      match r5 with
      | [] => some (h, mi, sec, none)
      | '+' :: r => (parseOff 1 r).map (fun o => (h, mi, sec, some o))
      | '-' :: r => (parseOff (-1) r).map (fun o => (h, mi, sec, some o))
      | _ => none
    | _ => none
  | _ => none

/-- Parse `YYYY-MM-DD`, optionally followed by one separator character and a
time-of-day (the strict pre-3.11 `datetime.fromisoformat` grammar, without
fractional seconds). -/
def parseISO (cs : List Char) : Option PyDateTime := do
  let (y, r1) ← parse4 cs
  match r1 with
  | '-' :: r2 => do
    let (mo, r3) ← parse2 r2
    match r3 with
    | '-' :: r4 => do
      let (d, r5) ← parse2 r4
      if validDate y mo d = false then none else
      match r5 with
      | [] => some ⟨y, mo, d, 0, 0, 0, none⟩
      | _ :: r6 => do
        let (h, mi, sec, off) ← parseTimeTail r6
        some ⟨y, mo, d, h, mi, sec, off⟩
    | _ => none
  | _ => none

/-- `datetime.fromisoformat` on a string, `none` modelling a raised
`ValueError`. -/
def pyFromIsoformat (s : String) : Option PyDateTime :=
  parseISO s.data

/-- Days since 1970-01-01 of a proleptic Gregorian date
(the standard civil-calendar conversion). -/
def daysFromCivil (y m d : Int) : Int :=
  let yy := if m ≤ 2 then y - 1 else y
  let era := Int.fdiv yy 400
  let yoe := yy - era * 400
  let mp := Int.emod (m + 9) 12
  let doy := Int.fdiv (153 * mp + 2) 5 + d - 1
  let doe := yoe * 365 + Int.fdiv yoe 4 - Int.fdiv yoe 100 + doy
  era * 146097 + doe - 719468

/-- Inverse of `daysFromCivil`: the (year, month, day) of an epoch day. -/
def civilFromDays (z0 : Int) : Int × Int × Int :=
  let z := z0 + 719468
  let era := Int.fdiv z 146097
  let doe := z - era * 146097
  let yoe :=
    Int.fdiv (doe - Int.fdiv doe 1460 + Int.fdiv doe 36524 - Int.fdiv doe 146096) 365
  let y := yoe + era * 400
  let doy := doe - (365 * yoe + Int.fdiv yoe 4 - Int.fdiv yoe 100)
  let mp := Int.fdiv (5 * doy + 2) 153
  let d := doy - Int.fdiv (153 * mp + 2) 5 + 1
  let m := mp + (if mp < 10 then 3 else -9)
  (if m ≤ 2 then y + 1 else y, m, d)

/-- The UTC instant (epoch seconds) denoted by a parsed datetime, as
`astimezone` interprets it: an aware datetime carries its own offset, a naive
one is taken in the machine-local timezone `localOffsetSec`. -/
def epochOfDT (localOffsetSec : Int) (dt : PyDateTime) : Int :=
  let wall := daysFromCivil dt.year dt.month dt.day * 86400
    + (dt.hour : Int) * 3600 + (dt.minute : Int) * 60 + dt.second
  match dt.offsetMinutes with
  | some off => wall - off * 60
  | none => wall - localOffsetSec

/-- Wall-clock epoch seconds of `datetime.min` (0001-01-01 00:00:00). -/
def minWallSec : Int := daysFromCivil 1 1 1 * 86400

/-- Wall-clock epoch seconds of `datetime.max` to whole seconds
(9999-12-31 23:59:59). -/
def maxWallSec : Int := daysFromCivil 9999 12 31 * 86400 + 86399

/-- Whether `utc_time.astimezone(ist)` succeeds for the instant `t`:
the conversion materialises the UTC instant and its IST wall time
(`t + 19800`) as datetimes and raises OverflowError when either leaves the
year 1–9999 range.  (Platform-specific failures resolving the local offset of
naive datetimes near the bounds are not modelled.) -/
def astimezoneOk (t : Int) : Bool :=
  decide (minWallSec ≤ t ∧ t + 19800 ≤ maxWallSec)

/-- Two-digit zero-padded decimal rendering (for nonnegative values). -/
def pad2 (n : Int) : String :=
  if n < 10 then "0" ++ toString n else toString n

/-- Four-digit zero-padded decimal rendering (`strftime` pads `%Y` to 4). -/
def pad4 (n : Int) : String :=
  if n < 10 then "000" ++ toString n
  else if n < 100 then "00" ++ toString n
  else if n < 1000 then "0" ++ toString n
  else toString n

/-- `ist_time.strftime("%Y-%m-%d %H:%M:%S IST")`: the instant shifted to
Asia/Kolkata wall time (UTC+5:30 = 19800 s) and rendered. -/
def formatIST (epoch : Int) : String :=
  let w := epoch + 19800
  let days := Int.fdiv w 86400
  let rem := w - days * 86400
  let c := civilFromDays days
  pad4 c.1 ++ "-" ++ pad2 c.2.1 ++ "-" ++ pad2 c.2.2 ++ " "
    ++ pad2 (Int.fdiv rem 3600) ++ ":" ++ pad2 (Int.emod (Int.fdiv rem 60) 60)
    ++ ":" ++ pad2 (Int.emod rem 60) ++ " IST"

/-- The `ago` string of `format_last_seen` as a function of the elapsed
minutes `mins = int(diff.total_seconds() // 60)`. -/
def agoString (mins : Int) : String :=
  if mins < 60 then toString mins ++ "m ago"
  else
    let hrs := Int.fdiv mins 60
    if hrs < 24 then toString hrs ++ "h ago"
    else toString (Int.fdiv hrs 24) ++ "d ago"

/-- `GensynTracker.format_last_seen` (src/api/index.py lines 78–111).
`localOffsetSec` is the machine-local UTC offset Python would use for naive
datetimes; `nowEpoch` is `datetime.now()` as an epoch instant.  Note that the
source rebinds `last_seen_str` to the `'Z'`-replaced string before parsing, so
both failure branches — a `ValueError` from parsing, and an `OverflowError`
from `astimezone` when the instant or its IST wall time leaves the datetime
range — return the replaced string. -/
def format_last_seen (localOffsetSec nowEpoch : Int) (last_seen_str : String) :
    LastSeenView :=
  if last_seen_str = "" then ⟨"Never", "Never", false⟩
  else
    let s := replaceZ last_seen_str
    match pyFromIsoformat s with
    | none => ⟨s, "Unknown", false⟩
    | some dt =>
      let t := epochOfDT localOffsetSec dt
      if astimezoneOk t then
        let mins := Int.fdiv (nowEpoch - t) 60
        ⟨formatIST t, agoString mins, decide (mins < 10)⟩
      else ⟨s, "Unknown", false⟩

/-- `GensynTracker.get_peer_ids_from_eoa` (src/api/index.py lines 41–56).
The Web3 library is external, so its pieces are oracle parameters:
`hasContract` is whether `self.contract` is set, `is_address` is
`Web3.is_address`, `to_checksum_address` and `callGetPeerId` may throw
(`Except.error`), and every exception is absorbed to `[]` as by the
`try/except`.  `result[0] if result else []` keeps the first address's
peer-ID list. -/
def get_peer_ids_from_eoa (hasContract : Bool) (is_address : String → Bool)
    (to_checksum_address : String → Except String String)
    (callGetPeerId : String → Except String (List (List String)))
    (eoa_address : String) : List String :=
  if hasContract = false then []
  else if is_address eoa_address = false then []
  else
    match to_checksum_address eoa_address with
    | .error _ => []
    | .ok checksum_address =>
      match callGetPeerId checksum_address with
      | .error _ => []
      | .ok result =>
        match result with
        | [] => []
        | r0 :: _ => r0

/-- A record of the leaderboard response, `ranks[i]`: JSON keys that may be
absent are `Option`s (`dict.get` with a default is `Option.getD`). -/
structure RankRecord where
  peerId : Option String
  rank : Option Int
  totalWins : Option Int
  totalRewards : Option Int
  lastSeen : Option String
deriving DecidableEq, Repr

/-- The `stats` block of the leaderboard response. -/
structure LeaderboardStats where
  totalNodes : Option Int
  rankedNodes : Option Int
deriving DecidableEq, Repr

/-- The parsed JSON body of a 200 response from the leaderboard endpoint
(`{ranks: [...], stats: {...}}`, both keys possibly absent). -/
structure RankData where
  ranks : Option (List RankRecord)
  stats : Option LeaderboardStats
deriving DecidableEq, Repr

/-- Outcome of the single `requests.post` call: a raised exception, or a
response with a status code and a body whose JSON parse may fail (`none`). -/
inductive PostOutcome where
  | exc
  | resp (status : Int) (body : Option RankData)
deriving DecidableEq, Repr

/-- `GensynTracker.fetch_rank_data` (src/api/index.py lines 58–76), with the
network as the oracle `post`.  The second component counts how many network
calls were performed.  Empty input short-circuits (`if not peer_ids`); a
non-200 status, an exception, or a JSON parse failure yields `none`. -/
def fetch_rank_data (post : List String → PostOutcome)
    (peer_ids : List String) : Option RankData × Nat :=
  if peer_ids.isEmpty then (none, 0)
  else
    match post peer_ids with
    | .exc => (none, 1)
    | .resp status body => if status = 200 then (body, 1) else (none, 1)

/-- The presented `rank` field: the record's rank, or the `'N/A'` default of
`rank_info.get('rank', 'N/A')`. -/
inductive RankField where
  | value (n : Int)
  | na
deriving DecidableEq, Repr

/-- One element of the `nodes_info` list built by `track_node`. -/
structure NodeView where
  node_id : Nat
  peer_id : String
  rank : RankField
  total_wins : Int
  total_rewards : Int
  last_seen : LastSeenView
  status : String
deriving DecidableEq, Repr

/-- The loop body of `track_node` (src/api/index.py lines 155–167) for loop
index `i` (0-based, as `enumerate`). -/
def presentNode (localOffsetSec nowEpoch : Int) (i : Nat) (r : RankRecord) :
    NodeView :=
  let ls := format_last_seen localOffsetSec nowEpoch (r.lastSeen.getD "")
  { node_id := i + 1
    peer_id := r.peerId.getD ""
    rank := match r.rank with
      | some n => .value n
      | none => .na
    total_wins := r.totalWins.getD 0
    total_rewards := r.totalRewards.getD 0
    last_seen := ls
    status := if ls.is_online then "online" else "offline" }

/-- The `for i, rank_info in enumerate(ranks)` loop, accumulating from loop
index `i`. -/
def buildNodesAux (localOffsetSec nowEpoch : Int) (i : Nat) :
    List RankRecord → List NodeView
  | [] => []
  | r :: rs =>
    presentNode localOffsetSec nowEpoch i r
      :: buildNodesAux localOffsetSec nowEpoch (i + 1) rs

/-- The full `nodes_info` list (loop started at index 0). -/
def buildNodesInfo (localOffsetSec nowEpoch : Int) (ranks : List RankRecord) :
    List NodeView :=
  buildNodesAux localOffsetSec nowEpoch 0 ranks

/-- The `stats` block of the `/track` JSON response. -/
structure StatsView where
  total_nodes : Int
  ranked_nodes : Int
  your_nodes : Nat
deriving DecidableEq, Repr

/-- The success JSON response of `/track` (the `timestamp` field, a render of
the wall clock, is omitted from the view). -/
structure TrackResponse where
  eoa : String
  nodes : List NodeView
  stats : StatsView
deriving DecidableEq, Repr

/-- Response assembly of `track_node` (src/api/index.py lines 151–178),
reached with the queried `peer_ids` and a non-`None` `node_data`:
`node_data.get('ranks', [])`, `node_data.get('stats', {})`, the node loop,
and the aggregate block with `your_nodes = len(peer_ids)`. -/
def assembleResponse (localOffsetSec nowEpoch : Int) (eoa_address : String)
    (peer_ids : List String) (node_data : RankData) : TrackResponse :=
  let ranks := node_data.ranks.getD []
  let stats := node_data.stats.getD ⟨none, none⟩
  { eoa := eoa_address
    nodes := buildNodesInfo localOffsetSec nowEpoch ranks
    stats :=
      { total_nodes := stats.totalNodes.getD 0
        ranked_nodes := stats.rankedNodes.getD 0
        your_nodes := peer_ids.length } }

/-- Unfolding of `format_last_seen` on a non-empty input whose (Z-replaced)
string parses and whose IST conversion stays in the datetime range. -/
theorem format_last_seen_parsed (localOffsetSec nowEpoch : Int) (s : String)
    (dt : PyDateTime) (h0 : ¬ s = "")
    (h : pyFromIsoformat (replaceZ s) = some dt)
    (hr : astimezoneOk (epochOfDT localOffsetSec dt) = true) :
    format_last_seen localOffsetSec nowEpoch s =
      ⟨formatIST (epochOfDT localOffsetSec dt),
       agoString (Int.fdiv (nowEpoch - epochOfDT localOffsetSec dt) 60),
       decide (Int.fdiv (nowEpoch - epochOfDT localOffsetSec dt) 60 < 10)⟩ := by
  simp only [format_last_seen, if_neg h0, h, hr, if_true]

/-- Unfolding of `format_last_seen` on a non-empty input whose (Z-replaced)
string fails to parse. -/
theorem format_last_seen_failed (localOffsetSec nowEpoch : Int) (s : String)
    (h0 : ¬ s = "") (h : pyFromIsoformat (replaceZ s) = none) :
    format_last_seen localOffsetSec nowEpoch s =
      ⟨replaceZ s, "Unknown", false⟩ := by
  simp only [format_last_seen, if_neg h0, h]

/-- The node loop produces as many views as records, from any start index. -/
theorem buildNodesAux_length (localOffsetSec nowEpoch : Int)
    (rs : List RankRecord) :
    ∀ k : Nat, (buildNodesAux localOffsetSec nowEpoch k rs).length = rs.length := by
  induction rs with
  | nil => intro k; rfl
  | cons r rs ih => intro k; simpa [buildNodesAux] using ih (k + 1)

/-- Element `i` of the node loop started at index `k` is the presentation of
record `i` at loop index `k + i`. -/
theorem buildNodesAux_get (localOffsetSec nowEpoch : Int)
    (rs : List RankRecord) :
    ∀ k i : Nat, (buildNodesAux localOffsetSec nowEpoch k rs).get? i =
      (rs.get? i).map (presentNode localOffsetSec nowEpoch (k + i)) := by
  induction rs with
  | nil => intro k i; simp [buildNodesAux]
  | cons r rs ih =>
    intro k i
    cases i with
    | zero => simp [buildNodesAux]
    | succ j =>
      have e : k + 1 + j = k + (j + 1) := by omega
      simp only [buildNodesAux, List.get?_cons_succ]
      rw [ih (k + 1) j, e]

/-- C1 (counterexample): at last-seen `"2024-01-01T00:00:00Z"` evaluated at
the instant `"2024-01-01T00:05:00Z"` (epoch 1704067500), the `formatted`
field is not `"2024-01-01 05:35:00 IST"` as the claim states: the code
formats the converted last-seen instant, 05:30:00 IST. -/
theorem c1_formatted_counterexample :
    (format_last_seen 0 1704067500 "2024-01-01T00:00:00Z").formatted ≠
      "2024-01-01 05:35:00 IST" := by decide

/-- C1 (amended): the input `"2024-01-01T00:00:00Z"` evaluated at
`"2024-01-01T00:05:00Z"` (epoch 1704067500) yields `ago = "5m ago"`,
`is_online = true` and `formatted = "2024-01-01 05:30:00 IST"` — the
last-seen instant converted to UTC+5:30 — and, the `'Z'` suffix being taken
as the UTC offset, the result is the same whether the machine-local timezone
is UTC (offset 0) or IST (offset 19800). -/
theorem c1_example_amended :
    format_last_seen 0 1704067500 "2024-01-01T00:00:00Z" =
      ⟨"2024-01-01 05:30:00 IST", "5m ago", true⟩ ∧
    format_last_seen 19800 1704067500 "2024-01-01T00:00:00Z" =
      ⟨"2024-01-01 05:30:00 IST", "5m ago", true⟩ := by
  constructor <;> rfl

/-- C2 (counterexample): on the unparsable input `"Zebra"` the result is not
`{formatted: "Zebra", ago: "Unknown", is_online: false}` — the source rebinds
the input to its `'Z'`-replaced form before parsing, so `formatted` is
`"+00:00ebra"`. -/
theorem c2_raw_string_counterexample :
    format_last_seen 0 0 "Zebra" ≠ ⟨"Zebra", "Unknown", false⟩ := by decide

/-- C2 (amended): for every non-empty last-seen string whose parsing fails,
`format_last_seen` returns `{formatted: the input with every 'Z' replaced by
'+00:00' (the original raw string when it contains no 'Z'), ago: "Unknown",
is_online: false}`, and the failure is absorbed, not propagated. -/
theorem c2_parse_failure_amended (localOffsetSec nowEpoch : Int) (s : String)
    (h0 : ¬ s = "") (h : pyFromIsoformat (replaceZ s) = none) :
    format_last_seen localOffsetSec nowEpoch s =
      ⟨replaceZ s, "Unknown", false⟩ :=
  format_last_seen_failed localOffsetSec nowEpoch s h0 h

/-- C2 witness: the amended failure branch at the concrete input `"Zebra"`. -/
theorem c2_parse_failure_witness :
    format_last_seen 0 0 "Zebra" = ⟨replaceZ "Zebra", "Unknown", false⟩ :=
  c2_parse_failure_amended 0 0 "Zebra" (by decide) (by decide)

/-- C9: the empty (absent) last-seen input yields
`{formatted: "Never", ago: "Never", is_online: false}`, whatever the local
timezone and the current time. -/
theorem c9_empty_never (localOffsetSec nowEpoch : Int) :
    format_last_seen localOffsetSec nowEpoch "" =
      ⟨"Never", "Never", false⟩ := rfl

/-- C3 (counterexample): `"9999-12-31T23:00:00Z"` parses successfully, yet —
its IST conversion overflowing the datetime range, which `astimezone` turns
into an absorbed OverflowError — at an elapsed time of exactly 9m59s the node
is reported offline (the claim says online), and at exactly 59 elapsed
minutes `ago` is `"Unknown"`, not the minutes form. -/
theorem c3_overflow_counterexample :
    pyFromIsoformat (replaceZ "9999-12-31T23:00:00Z") =
      some ⟨9999, 12, 31, 23, 0, 0, some 0⟩ ∧
    (format_last_seen 0 (epochOfDT 0 ⟨9999, 12, 31, 23, 0, 0, some 0⟩ + 599)
        "9999-12-31T23:00:00Z").is_online = false ∧
    (format_last_seen 0 (epochOfDT 0 ⟨9999, 12, 31, 23, 0, 0, some 0⟩ + 3540)
        "9999-12-31T23:00:00Z").ago = "Unknown" := by decide

/-- C3 (amended): for every successfully parsed last-seen timestamp whose IST
conversion stays within the datetime year 1–9999 range, at an elapsed time of
exactly 9m59s the node is online and at exactly 10m0s it is not; at exactly
59 elapsed minutes the `ago` string uses the minutes form, at exactly 60
minutes the hours form with `h = 1 = floor(60/60)`, and at exactly 1440
minutes the days form with `d = 1 = floor(1440/1440)`. -/
theorem c3_boundaries_amended (localOffsetSec : Int) (s : String)
    (dt : PyDateTime) (h0 : ¬ s = "")
    (h : pyFromIsoformat (replaceZ s) = some dt)
    (hr : astimezoneOk (epochOfDT localOffsetSec dt) = true) :
    (format_last_seen localOffsetSec (epochOfDT localOffsetSec dt + 599) s).is_online
        = true ∧
    (format_last_seen localOffsetSec (epochOfDT localOffsetSec dt + 600) s).is_online
        = false ∧
    (format_last_seen localOffsetSec (epochOfDT localOffsetSec dt + 3540) s).ago
        = "59m ago" ∧
    (format_last_seen localOffsetSec (epochOfDT localOffsetSec dt + 3600) s).ago
        = "1h ago" ∧
    (format_last_seen localOffsetSec (epochOfDT localOffsetSec dt + 86400) s).ago
        = "1d ago" := by
  have e : ∀ k : Int,
      epochOfDT localOffsetSec dt + k - epochOfDT localOffsetSec dt = k := by
    intro k; ring
  refine ⟨?_, ?_, ?_, ?_, ?_⟩ <;>
    rw [format_last_seen_parsed _ _ s dt h0 h hr] <;>
    simp only [e] <;> decide

/-- C3 witness: the boundary facts at the concrete parsed timestamp
`"2024-01-01T00:00:00Z"`, whose IST conversion is in range. -/
theorem c3_boundaries_witness :
    (format_last_seen 0 (epochOfDT 0 ⟨2024, 1, 1, 0, 0, 0, some 0⟩ + 599)
        "2024-01-01T00:00:00Z").is_online = true ∧
    (format_last_seen 0 (epochOfDT 0 ⟨2024, 1, 1, 0, 0, 0, some 0⟩ + 600)
        "2024-01-01T00:00:00Z").is_online = false ∧
    (format_last_seen 0 (epochOfDT 0 ⟨2024, 1, 1, 0, 0, 0, some 0⟩ + 3540)
        "2024-01-01T00:00:00Z").ago = "59m ago" ∧
    (format_last_seen 0 (epochOfDT 0 ⟨2024, 1, 1, 0, 0, 0, some 0⟩ + 3600)
        "2024-01-01T00:00:00Z").ago = "1h ago" ∧
    (format_last_seen 0 (epochOfDT 0 ⟨2024, 1, 1, 0, 0, 0, some 0⟩ + 86400)
        "2024-01-01T00:00:00Z").ago = "1d ago" :=
  c3_boundaries_amended 0 "2024-01-01T00:00:00Z" ⟨2024, 1, 1, 0, 0, 0, some 0⟩
    (by decide) (by decide) (by decide)

/-- C4: in the assembled `/track` response, `your_nodes` equals the number of
queried peer IDs, and `total_nodes` / `ranked_nodes` are taken from the stats
block with default 0 when absent; in particular, with 3 queried peer IDs and
only 2 returned rank records, `your_nodes = 3` while `nodes` has length 2. -/
theorem c4_aggregates (localOffsetSec nowEpoch : Int) (eoa_address : String)
    (peer_ids : List String) (nd : RankData) :
    ((assembleResponse localOffsetSec nowEpoch eoa_address peer_ids nd).stats.your_nodes
        = peer_ids.length) ∧
    ((assembleResponse localOffsetSec nowEpoch eoa_address peer_ids nd).stats.total_nodes
        = (nd.stats.getD ⟨none, none⟩).totalNodes.getD 0) ∧
    ((assembleResponse localOffsetSec nowEpoch eoa_address peer_ids nd).stats.ranked_nodes
        = (nd.stats.getD ⟨none, none⟩).rankedNodes.getD 0) ∧
    (∀ (p1 p2 p3 : String) (r1 r2 : RankRecord),
      (assembleResponse localOffsetSec nowEpoch eoa_address [p1, p2, p3]
          ⟨some [r1, r2], nd.stats⟩).stats.your_nodes = 3 ∧
      (assembleResponse localOffsetSec nowEpoch eoa_address [p1, p2, p3]
          ⟨some [r1, r2], nd.stats⟩).nodes.length = 2) := by
  refine ⟨rfl, rfl, rfl, ?_⟩
  intro p1 p2 p3 r1 r2
  exact ⟨rfl, rfl⟩

/-- C5: a malformed address (one failing the `Web3.is_address` check) makes
the chain reader return the empty list, whatever the contract state and
whatever the checksum and contract-call oracles would do. -/
theorem c5_malformed_address (hasContract : Bool) (is_address : String → Bool)
    (to_checksum_address : String → Except String String)
    (callGetPeerId : String → Except String (List (List String)))
    (eoa_address : String) (h : is_address eoa_address = false) :
    get_peer_ids_from_eoa hasContract is_address to_checksum_address
      callGetPeerId eoa_address = [] := by
  cases hasContract <;> simp [get_peer_ids_from_eoa, h]

/-- C5 witness: a concrete rejected address, with oracles that would have
returned a peer ID had they been consulted. -/
theorem c5_malformed_address_witness :
    get_peer_ids_from_eoa true (fun _ => false) (fun a => Except.ok a)
      (fun _ => Except.ok [["peer1"]]) "0xnotanaddress" = [] :=
  c5_malformed_address true (fun _ => false) (fun a => Except.ok a)
    (fun _ => Except.ok [["peer1"]]) "0xnotanaddress" rfl

/-- C6: on an empty peer-ID list the leaderboard client returns the no-data
sentinel (`none`) having made zero network calls, whatever the network would
have answered. -/
theorem c6_empty_short_circuit (post : List String → PostOutcome) :
    fetch_rank_data post [] = (none, 0) := rfl

/-- C7: response assembly produces exactly one node view per rank record, in
input order (element `i` of the output presents record `i`), and each view's
`node_id` is its 1-based position. -/
theorem c7_node_order (localOffsetSec nowEpoch : Int)
    (ranks : List RankRecord) :
    (buildNodesInfo localOffsetSec nowEpoch ranks).length = ranks.length ∧
    (∀ i : Nat, (buildNodesInfo localOffsetSec nowEpoch ranks).get? i =
      (ranks.get? i).map (presentNode localOffsetSec nowEpoch i)) ∧
    (∀ (i : Nat) (r : RankRecord),
      (presentNode localOffsetSec nowEpoch i r).node_id = i + 1) := by
  refine ⟨buildNodesAux_length _ _ ranks 0, ?_, fun i r => rfl⟩
  intro i
  simpa using buildNodesAux_get localOffsetSec nowEpoch ranks 0 i

/-- C8: fields missing from a rank record default in the presented view to
rank `"N/A"`, totalWins 0, totalRewards 0, and peerId the empty string. -/
theorem c8_missing_field_defaults (localOffsetSec nowEpoch : Int) (i : Nat)
    (r : RankRecord) :
    (r.rank = none →
      (presentNode localOffsetSec nowEpoch i r).rank = RankField.na) ∧
    (r.totalWins = none →
      (presentNode localOffsetSec nowEpoch i r).total_wins = 0) ∧
    (r.totalRewards = none →
      (presentNode localOffsetSec nowEpoch i r).total_rewards = 0) ∧
    (r.peerId = none →
      (presentNode localOffsetSec nowEpoch i r).peer_id = "") := by
  refine ⟨?_, ?_, ?_, ?_⟩ <;> intro h <;> simp [presentNode, h]

/-- C8 witness: the defaults at a record with every field absent. -/
theorem c8_missing_field_defaults_witness :
    (presentNode 0 0 0 ⟨none, none, none, none, none⟩).rank = RankField.na ∧
    (presentNode 0 0 0 ⟨none, none, none, none, none⟩).total_wins = 0 ∧
    (presentNode 0 0 0 ⟨none, none, none, none, none⟩).total_rewards = 0 ∧
    (presentNode 0 0 0 ⟨none, none, none, none, none⟩).peer_id = "" :=
  ⟨(c8_missing_field_defaults 0 0 0 ⟨none, none, none, none, none⟩).1 rfl,
   (c8_missing_field_defaults 0 0 0 ⟨none, none, none, none, none⟩).2.1 rfl,
   (c8_missing_field_defaults 0 0 0 ⟨none, none, none, none, none⟩).2.2.1 rfl,
   (c8_missing_field_defaults 0 0 0 ⟨none, none, none, none, none⟩).2.2.2 rfl⟩

/-- C10 (counterexample): the last-seen `"9999-12-31T23:00:00Z"` parses
successfully and is strictly in the future of the evaluation instant
`"2024-01-01T00:05:00Z"` (epoch 1704067500), yet the program reports
`is_online = false` and `ago = "Unknown"` — its IST conversion overflows the
datetime range and `astimezone`'s OverflowError is absorbed into the fallback
— not the claimed online/negative-minutes output. -/
theorem c10_overflow_counterexample :
    pyFromIsoformat (replaceZ "9999-12-31T23:00:00Z") =
      some ⟨9999, 12, 31, 23, 0, 0, some 0⟩ ∧
    (1704067500 : Int) < epochOfDT 0 ⟨9999, 12, 31, 23, 0, 0, some 0⟩ ∧
    format_last_seen 0 1704067500 "9999-12-31T23:00:00Z" =
      ⟨"9999-12-31T23:00:00+00:00", "Unknown", false⟩ := by decide

/-- C10 (amended): a successfully parsed last-seen timestamp strictly in the
future of the evaluation instant whose IST conversion stays within the
datetime year 1–9999 range gives a negative elapsed minute count, is reported
as online, and its `ago` string is the minutes form of that negative count. -/
theorem c10_future_timestamp (localOffsetSec nowEpoch : Int) (s : String)
    (dt : PyDateTime) (h0 : ¬ s = "")
    (h : pyFromIsoformat (replaceZ s) = some dt)
    (hr : astimezoneOk (epochOfDT localOffsetSec dt) = true)
    (hfut : nowEpoch < epochOfDT localOffsetSec dt) :
    Int.fdiv (nowEpoch - epochOfDT localOffsetSec dt) 60 < 0 ∧
    (format_last_seen localOffsetSec nowEpoch s).is_online = true ∧
    (format_last_seen localOffsetSec nowEpoch s).ago =
      toString (Int.fdiv (nowEpoch - epochOfDT localOffsetSec dt) 60)
        ++ "m ago" := by
  have hneg : nowEpoch - epochOfDT localOffsetSec dt < 0 := by omega
  have hm : Int.fdiv (nowEpoch - epochOfDT localOffsetSec dt) 60 < 0 :=
    Int.fdiv_neg' hneg (by norm_num)
  refine ⟨hm, ?_, ?_⟩
  · rw [format_last_seen_parsed _ _ s dt h0 h hr]
    show decide (Int.fdiv (nowEpoch - epochOfDT localOffsetSec dt) 60 < 10) = true
    simp only [decide_eq_true_eq]
    omega
  · rw [format_last_seen_parsed _ _ s dt h0 h hr]
    show agoString (Int.fdiv (nowEpoch - epochOfDT localOffsetSec dt) 60) = _
    unfold agoString
    rw [if_pos (show Int.fdiv (nowEpoch - epochOfDT localOffsetSec dt) 60 < 60
      by omega)]

/-- C10 witness: last-seen `"2024-01-01T00:00:00Z"` (epoch 1704067200)
evaluated one second earlier. -/
theorem c10_future_timestamp_witness :
    Int.fdiv (1704067199 - epochOfDT 0 ⟨2024, 1, 1, 0, 0, 0, some 0⟩) 60 < 0 ∧
    (format_last_seen 0 1704067199 "2024-01-01T00:00:00Z").is_online = true ∧
    (format_last_seen 0 1704067199 "2024-01-01T00:00:00Z").ago =
      toString (Int.fdiv (1704067199 - epochOfDT 0 ⟨2024, 1, 1, 0, 0, 0, some 0⟩) 60)
        ++ "m ago" :=
  c10_future_timestamp 0 1704067199 "2024-01-01T00:00:00Z"
    ⟨2024, 1, 1, 0, 0, 0, some 0⟩ (by decide) (by decide) (by decide) (by decide)
